import Mathlib

/-!
Verification development for the VLM-SLAM repository (src/main.py and
src/screenshot_tool.py), as a shallow embedding in Lean 4.

The embedding covers:
* the application-level retry loop `send_messages` of src/main.py
  (lines 59-103), including the per-attempt classification of HTTP
  statuses, provider error codes, and Python exception semantics of the
  reply-extraction expression;
* the conversation driver `main` of src/main.py (lines 105-166);
* the frame enumerator of src/main.py line 117 (glob filter plus
  natural-sort key);
* the capture loop of src/screenshot_tool.py.

Machine-level conventions: HTTP statuses and sleep durations are
naturals; a sleep of 2^i in this file is in half-second units, so it
equals the 0.5 * 2^i seconds slept by `time.sleep(2 ** i * 0.5)`.
-/

/-- A JSON value, as produced by `r.json()` in src/main.py. -/
inductive Json where
  | null : Json
  | bool (b : Bool) : Json
  | num (v : Int) : Json
  | str (s : String) : Json
  | arr (xs : List Json) : Json
  | obj (fields : List (String × Json)) : Json

/-- Structural equality of JSON values, the meaning of Python `==` on
values parsed from JSON. -/
def Json.beq : Json → Json → Bool
  | .null, .null => true
  | .bool a, .bool b => a = b
  | .num a, .num b => a = b
  | .str a, .str b => a = b
  | .arr [], .arr [] => true
  | .arr (x :: xs), .arr (y :: ys) => Json.beq x y && Json.beq (.arr xs) (.arr ys)
  | .obj [], .obj [] => true
  | .obj ((k, v) :: fs), .obj ((k2, v2) :: gs) =>
      k = k2 && Json.beq v v2 && Json.beq (.obj fs) (.obj gs)
  | _, _ => false

/-- Is `lead` an initial segment of `cs`? -/
def leadMatch : List Char → List Char → Bool
  | [], _ => true
  | _ :: _, [] => false
  | a :: as, b :: bs => a = b && leadMatch as bs

/-- Does `needle` occur contiguously inside `hay`? (Python `in` on
strings.) -/
def substrOf (needle : List Char) : List Char → Bool
  | [] => needle.isEmpty
  | b :: bs => leadMatch needle (b :: bs) || substrOf needle bs

/-- The Python exceptions that can be raised while the body of the
`try` block of `send_messages` evaluates lines 87-96 of src/main.py.
`keyError` and `valueError` appear in the `except` tuple at line 98;
`typeError`, `indexError` and `attributeError` do not, so they
propagate out of `send_messages`. -/
inductive PyExn where
  | keyError : PyExn
  | valueError : PyExn
  | typeError : PyExn
  | indexError : PyExn
  | attributeError : PyExn
deriving DecidableEq, Repr

/-- Is the exception in the `except` tuple of line 98 of src/main.py
(`requests.RequestException, RuntimeError, KeyError, ValueError,
json.JSONDecodeError`)?  Transport errors, HTTPError (a subclass of
RequestException) and RuntimeError are handled directly in `classify`;
here only the exceptions of the extraction expression matter. -/
def caughtByExcept : PyExn → Bool
  | .keyError => true
  | .valueError => true
  | .typeError => false
  | .indexError => false
  | .attributeError => false

/-- Result of evaluating a Python expression: a value or a raised
exception. -/
inductive PyResult (α : Type) where
  | ok (a : α) : PyResult α
  | exn (e : PyExn) : PyResult α
deriving DecidableEq, Repr

/-- Python dictionary lookup on an association list, first match wins
(real JSON objects from `r.json()` have unique keys). -/
def jsonLookup (fields : List (String × Json)) (key : String) : Option Json :=
  match fields with
  | [] => none
  | (k, v) :: rest => if k = key then some v else jsonLookup rest key

/-- Python `key in data` for a string key: dict membership, list element
membership, substring test on strings; `TypeError` on other values. -/
def pyContains (key : String) (j : Json) : PyResult Bool :=
  match j with
  | .obj fields => .ok (jsonLookup fields key).isSome
  | .arr xs => .ok (xs.any (fun x => Json.beq x (Json.str key)))
  | .str s => .ok (substrOf key.toList s.toList)
  | _ => .exn .typeError

/-- Python `data.get(key, default)`: only dicts have `.get`; any other
value raises `AttributeError`. A missing key yields the default. -/
def pyGetDefault (j : Json) (key : String) (dflt : Json) : PyResult Json :=
  match j with
  | .obj fields => .ok ((jsonLookup fields key).getD dflt)
  | _ => .exn .attributeError

/-- Python `x.get(key)` with no default: missing key yields `None`. -/
def pyGetNone (j : Json) (key : String) : PyResult Json :=
  match j with
  | .obj fields => .ok ((jsonLookup fields key).getD Json.null)
  | _ => .exn .attributeError

/-- Python `j[key]` for a string key: dict lookup (`KeyError` when
missing); lists and strings reject string indices with `TypeError`;
other values are not subscriptable (`TypeError`). -/
def pySubscript (j : Json) (key : String) : PyResult Json :=
  match j with
  | .obj fields =>
    match jsonLookup fields key with
    | some v => .ok v
    | none => .exn .keyError
  | _ => .exn .typeError

/-- Python `j[0]`: first list element (`IndexError` on an empty list),
first character of a string (`IndexError` when empty), `KeyError` for a
dict whose keys are JSON strings, `TypeError` otherwise. -/
def pySubscriptZero (j : Json) : PyResult Json :=
  match j with
  | .arr [] => .exn .indexError
  | .arr (x :: _) => .ok x
  | .obj _ => .exn .keyError
  | .str s =>
    match s.toList with
    | [] => .exn .indexError
    | c :: _ => .ok (Json.str (String.mk [c]))
  | _ => .exn .typeError

/-- Python `code in RETRYABLE_API_CODES` where
`RETRYABLE_API_CODES = \x7b524, 529\x7d` (src/main.py line 57): numbers
compare by value, other hashable values are simply not members, and
unhashable values (lists, dicts) raise `TypeError`. -/
def codeInRetryableApiCodes (j : Json) : PyResult Bool :=
  match j with
  | .num v => .ok (v = 524 ∨ v = 529)
  | .arr _ => .exn .typeError
  | .obj _ => .exn .typeError
  | _ => .ok false

/-- `data["choices"][0]["message"]["content"]` (src/main.py line 96). -/
def extractReplyPath (data : Json) : PyResult Json :=
  match pySubscript data "choices" with
  | .exn e => .exn e
  | .ok choices =>
    match pySubscriptZero choices with
    | .exn e => .exn e
    | .ok first =>
      match pySubscript first "message" with
      | .exn e => .exn e
      | .ok msg => pySubscript msg "content"

/-- How a single attempt of the `for` loop of `send_messages` ends. -/
inductive AttemptOutcome where
  /-- line 96 `return data[...]...` executed with this value. -/
  | success (v : Json) : AttemptOutcome
  /-- line 93 `return None` (non-retryable API error). -/
  | fatal : AttemptOutcome
  /-- an exception listed in the `except` tuple of line 98 was raised:
  the attempt is consumed and, unless the budget is exhausted, the loop
  sleeps and retries. -/
  | caughtErr : AttemptOutcome
  /-- an exception not listed in the `except` tuple was raised: it
  propagates out of `send_messages` to the caller. -/
  | uncaughtExn (e : PyExn) : AttemptOutcome

/-- What the environment does for one `SESSION.post` call: the POST
itself raises (`requests.RequestException`, covering transport errors
and timeouts, after the transport-level retries of the mounted
adapter), or an HTTP response arrives with a status code and a body.
`body = none` means `r.json()` raises (malformed JSON). -/
inductive Attempt where
  | transportExn : Attempt
  | response (status : Nat) (body : Option Json) : Attempt

/-- `RETRYABLE_STATUSES = \x7b500, 502, 503, 504\x7d` (src/main.py line 56). -/
def retryableStatus (status : Nat) : Bool :=
  status = 500 ∨ status = 502 ∨ status = 503 ∨ status = 504

/-- Evaluation of lines 87-96 of src/main.py on the parsed body `data`:

```
if "error" in data and data.get("error", \x7b\x7d).get("code") in RETRYABLE_API_CODES:
    raise RuntimeError(...)
if "error" in data:
    return None
return data["choices"][0]["message"]["content"]
```

`RuntimeError` is in the `except` tuple, hence `caughtErr`. -/
def extractOutcome (data : Json) : AttemptOutcome :=
  match pyContains "error" data with
  | .exn e => if caughtByExcept e then .caughtErr else .uncaughtExn e
  | .ok hasError =>
    if hasError then
      match pyGetDefault data "error" (Json.obj []) with
      | .exn e => if caughtByExcept e then .caughtErr else .uncaughtExn e
      | .ok errObj =>
        match pyGetNone errObj "code" with
        | .exn e => if caughtByExcept e then .caughtErr else .uncaughtExn e
        | .ok code =>
          match codeInRetryableApiCodes code with
          | .exn e => if caughtByExcept e then .caughtErr else .uncaughtExn e
          | .ok inSet => if inSet then .caughtErr else .fatal
    else
      match extractReplyPath data with
      | .ok v => .success v
      | .exn e => if caughtByExcept e then .caughtErr else .uncaughtExn e

/-- One iteration of the `try` block of `send_messages`
(src/main.py lines 64-96), in source order:

* the POST raising is a `requests.RequestException`, caught at line 98;
* `400 <= r.status_code < 500` (line 76): `r.raise_for_status()` raises
  `requests.HTTPError`, a subclass of `requests.RequestException`,
  which the `except` tuple of line 98 also catches — so a 4xx attempt
  is consumed and retried like any transient failure;
* `r.status_code in RETRYABLE_STATUSES` (line 81): `RuntimeError`,
  caught;
* `r.json()` raising on a malformed body is a
  `ValueError`/`json.JSONDecodeError`, caught;
* otherwise lines 87-96 run on the parsed body. -/
def classify (a : Attempt) : AttemptOutcome :=
  match a with
  | .transportExn => .caughtErr
  | .response status body =>
    if 400 ≤ status ∧ status < 500 then .caughtErr
    else if retryableStatus status then .caughtErr
    else
      match body with
      | none => .caughtErr
      | some data => extractOutcome data

/-- The value `send_messages` produces for its caller. -/
inductive SendResult where
  /-- `return data["choices"][0]["message"]["content"]`. -/
  | ok (v : Json) : SendResult
  /-- `return None` (fatal API error, or budget exhausted). -/
  | noResult : SendResult
  /-- an uncaught exception propagates to the caller. -/
  | exn (e : PyExn) : SendResult

/-- Observable trace of one `send_messages` call: the returned value,
the `time.sleep` durations in order (in half-second units: an entry
`2^i` stands for `2 ** i * 0.5` seconds, src/main.py line 103), and how
many POST attempts were issued. -/
structure SendTrace where
  result : SendResult
  sleeps : List Nat
  tries : Nat

/-- The `for i in range(1, attempts + 1)` loop of `send_messages`
(src/main.py lines 63-103). `i` is the 1-based attempt number, `env i`
is what the network does on attempt `i`, and `fuel` is the number of
loop iterations still available (`attempts - i + 1` at every call).
On a caught failure with `i == attempts` the loop returns `None`
(line 102); otherwise it sleeps `2 ** i * 0.5` seconds and retries. -/
def sendGoAux (env : Nat → Attempt) (attempts : Nat) : Nat → Nat → SendTrace
  | _, 0 => ⟨.noResult, [], 0⟩
  | i, fuel + 1 =>
    match classify (env i) with
    | .success v => ⟨.ok v, [], 1⟩
    | .fatal => ⟨.noResult, [], 1⟩
    | .uncaughtExn e => ⟨.exn e, [], 1⟩
    | .caughtErr =>
      if i = attempts then ⟨.noResult, [], 1⟩
      else
        let t := sendGoAux env attempts (i + 1) fuel
        ⟨t.result, 2 ^ i :: t.sleeps, t.tries + 1⟩

/-- `send_messages(api_key, model, messages, attempts)` of src/main.py,
abstracted over the network behaviour `env` (the request payload —
api key, model, messages — does not influence the control flow being
verified). The loop starts at `i = 1` with `attempts` iterations
available; the default attempt budget in the source is 5. -/
def send_messages (env : Nat → Attempt) (attempts : Nat) : SendTrace :=
  sendGoAux env attempts 1 attempts

/-- `INITIAL_PROMPT` of src/main.py lines 30-43 (the adjacent Python
string literals concatenated). -/
def INITIAL_PROMPT : String :=
  "I\x27m going to have you \x27do SLAM\x27 as a vision LLM, with no algorithmic help. " ++
  "I just give you a series of pictures, and you make your own map and localize yourself within it. \n" ++
  "Assume that each new image is at maximum a few steps away from the last one, never a long distance." ++
  "Be concise. Make your map conceptual instead of exact. i.e. \"the bush is a few steps north of the stone\" " ++
  "is just fine, no need for exact measurements or directions. Think of yourself as a human orienting themself." ++
  "Use distictive and descriptive names for things, because you might later see more that are very similar. " ++
  "and have to name them as well." ++
  "For each picture I give you, respond with: \n" ++
  "1. interesting new observations\n" ++
  "2. your latest map (however you choose to represent it), and \n" ++
  "3. your current pose within the map. \n" ++
  "Continue until I tell you we\x27re finished.\n"

/-- The system turn content of src/main.py line 122. -/
def SYSTEM_PROMPT : String :=
  "You are a vision language model being used for algorithm-free conceptual SLAM (Simultaneous Localization and Mapping)."

/-- `BIRDS_EYE_VIEW_PROMPT` of src/main.py line 150. -/
def BIRDS_EYE_VIEW_PROMPT : String :=
  "Now that you have processed all images, please provide a comprehensive birds-eye view map of the entire environment you explored, clearly indicating the path taken, key landmarks, and your final localized position. Represent this map in a way that is easy to visualize as a plot."

/-- Message roles of the OpenRouter chat payload. -/
inductive Role where
  | system : Role
  | user : Role
  | assistant : Role
deriving DecidableEq, Repr

/-- One element of a structured `content` list: `\x7b"type": "text",
"text": s\x7d` or `\x7b"type": "image_url", "image_url": \x7b"url": u\x7d\x7d`. -/
inductive ContentPart where
  | text (s : String) : ContentPart
  | imageUrl (u : String) : ContentPart
deriving DecidableEq, Repr

/-- The `content` field of a message: a plain string (system turn,
summary user turn, assistant turns) or a list of typed parts
(per-frame user turns). -/
inductive Content where
  | str (s : String) : Content
  | parts (ps : List ContentPart) : Content
deriving DecidableEq, Repr

/-- One `\x7b"role": ..., "content": ...\x7d` entry of `convo`. -/
structure Turn where
  role : Role
  content : Content
deriving DecidableEq, Repr

/-- The conversation created at src/main.py lines 121-123. -/
def initialConvo : List Turn :=
  [⟨Role.system, Content.str SYSTEM_PROMPT⟩]

/-- Python truthiness of `reply : str | None` as tested by
`if not reply:` (line 140) and `if birds_eye_reply:` (line 156):
`None` and the empty string are falsy, every other string is truthy. -/
def pyTruthy : Option String → Bool
  | none => false
  | some s => !(s = "")

/-- The `user_content` built at src/main.py lines 129-136 for the frame
with 1-based index `idx` and data URI `u`: the first frame carries the
initial instruction text and the image, later frames only the image. -/
def userContent (idx : Nat) (u : String) : List ContentPart :=
  if idx = 1 then [ContentPart.text INITIAL_PROMPT, ContentPart.imageUrl u]
  else [ContentPart.imageUrl u]

/-- Observable outcome of the per-frame `for` loop of `main`
(src/main.py lines 127-147): the conversation built so far, the number
of `send_messages` calls issued, and whether the loop exited through
the `break` of line 142. -/
structure LoopResult where
  convo : List Turn
  nCalls : Nat
  halted : Bool
deriving DecidableEq, Repr

/-- The per-frame loop of `main` (src/main.py lines 127-147).
`frames` are the data URIs of the remaining frames (`b64_data_uri` is a
pure encoding of the image file, abstracted here into the frame list),
`idx` the 1-based index of the next frame, `convo` the conversation so
far and `n` the number of `send_messages` calls already issued.
`client n` is the reply of the `(n+1)`-st `send_messages` call; a
falsy reply triggers `break` (line 142), leaving the user turn of the
failed frame in `convo` with no assistant turn. -/
def frameLoop (client : Nat → Option String) :
    List String → Nat → List Turn → Nat → LoopResult
  | [], _, convo, n => ⟨convo, n, false⟩
  | u :: rest, idx, convo, n =>
    let convo1 := convo ++ [⟨Role.user, Content.parts (userContent idx u)⟩]
    if pyTruthy (client n) then
      frameLoop client rest (idx + 1)
        (convo1 ++ [⟨Role.assistant, Content.str ((client n).getD "")⟩]) (n + 1)
    else
      ⟨convo1, n + 1, true⟩

/-- Observable outcome of `main` after the summary block
(src/main.py lines 149-161): the final conversation (written verbatim
to `--out` when given, line 165), total `send_messages` calls, whether
the per-frame loop halted, and whether the summary reply was obtained. -/
structure MainResult where
  convo : List Turn
  nCalls : Nat
  halted : Bool
  summaryOk : Bool
deriving DecidableEq, Repr

/-- The summary block of `main` (src/main.py lines 149-161), run on
the state `r` left by the per-frame loop: append the bird\x27s-eye-view
user turn, send the whole conversation, and append the assistant reply
only when it is truthy. -/
def mainAfterLoop (client : Nat → Option String) (r : LoopResult) : MainResult :=
  if pyTruthy (client r.nCalls) then
    ⟨r.convo ++ [⟨Role.user, Content.str BIRDS_EYE_VIEW_PROMPT⟩] ++
       [⟨Role.assistant, Content.str ((client r.nCalls).getD "")⟩],
     r.nCalls + 1, r.halted, true⟩
  else
    ⟨r.convo ++ [⟨Role.user, Content.str BIRDS_EYE_VIEW_PROMPT⟩],
     r.nCalls + 1, r.halted, false⟩

/-- `main` of src/main.py from line 121 on, with the network abstracted
by `client` (indexed by call number) and the frames already enumerated
and encoded as data URIs. The summary block of lines 149-161 runs
unconditionally after the loop: the bird\x27s-eye user turn is appended
and sent whether or not the loop halted on a failed frame. -/
def mainRun (client : Nat → Option String) (frames : List String) : MainResult :=
  mainAfterLoop client (frameLoop client frames 1 initialConvo 0)

/-- One element of the sort key built at src/main.py line 117:
`[int(c) if c.isdigit() else c for c in re.split(r'(\d+)', path.name)]`
produces an alternating list of text pieces and numeric values. -/
inductive KeyPart where
  | txt (t : String) : KeyPart
  | num (v : Nat) : KeyPart
deriving DecidableEq, Repr

/-- Maximal runs of characters with the same `isdigit` class, in order,
each tagged with that class. -/
def runsAux : List Char → List (Bool × List Char)
  | [] => []
  | c :: cs =>
    match runsAux cs with
    | (b, run) :: rest =>
      if c.isDigit = b then (b, c :: run) :: rest
      else (c.isDigit, [c]) :: (b, run) :: rest
    | [] => [(c.isDigit, [c])]

/-- Python `int()` on a run of ASCII digits. -/
def digitsToNat (cs : List Char) : Nat :=
  cs.foldl (fun acc c => 10 * acc + (c.toNat - 48)) 0

/-- A run becomes `int(c)` when it is a digit run, else the text piece. -/
def runPart (br : Bool × List Char) : KeyPart :=
  if br.1 then KeyPart.num (digitsToNat br.2) else KeyPart.txt (String.mk br.2)

/-- The sort key of src/main.py line 117. `re.split(r'(\d+)', name)`
returns the alternating pieces starting and ending with a (possibly
empty) non-digit text piece, so an empty text piece is inserted before
a leading digit run and after a trailing one; `""` has key `[""]`.
Every key therefore holds text pieces at even positions and numbers at
odd positions, which is what makes the element-wise Python list
comparison below well-typed. -/
def natKey (name : String) : List KeyPart :=
  match runsAux name.toList with
  | [] => [KeyPart.txt ""]
  | rs =>
    let lead := match rs.head? with
      | some (true, _) => [KeyPart.txt ""]
      | _ => []
    let trail := match rs.getLast? with
      | some (true, _) => [KeyPart.txt ""]
      | _ => []
    lead ++ rs.map runPart ++ trail

/-- Python `<` on two key elements of the same position: strings
compare lexicographically by code point, ints numerically. (Mixed
comparisons raise `TypeError` in Python; they cannot occur between two
`natKey` results compared element-wise, and are given the fixed value
text-before-number here.) -/
def partLT : KeyPart → KeyPart → Bool
  | .txt a, .txt b => a < b
  | .txt _, .num _ => true
  | .num _, .txt _ => false
  | .num a, .num b => a < b

/-- Python list comparison (as used by `sorted` on the keys): the first
position where the lists differ decides by `<`; a list that is a strict
initial segment of the other is smaller. -/
def keyLE : List KeyPart → List KeyPart → Bool
  | [], _ => true
  | _ :: _, [] => false
  | a :: as, b :: bs => if a = b then keyLE as bs else partLT a b

/-- The comparison `sorted(..., key=...)` effectively sorts by. -/
def fileLE (a b : String) : Bool :=
  keyLE (natKey a) (natKey b)

/-- Insert `a` into the sorted list `l`, after every element `b` with
`le b a` — the placement a stable sort gives a newly considered
element among its ties. -/
def insertSorted (le : α → α → Bool) (a : α) : List α → List α
  | [] => [a]
  | b :: bs => if le b a then b :: insertSorted le a bs else a :: b :: bs

/-- A stable ascending sort by the boolean comparison `le`, the
observable behaviour of Python `sorted`: elements are taken left to
right and each is inserted after its ties in the sorted prefix. -/
def stableSort (le : α → α → Bool) (l : List α) : List α :=
  l.foldl (fun acc a => insertSorted le a acc) []

/-- The filename filter of `Path(args.dir).glob("*.[pj][np]g")`
(src/main.py line 117): `*` matches any sequence of characters, so a
name matches exactly when its last four characters are `.`, then `p` or
`j`, then `n` or `p`, then `g` — i.e. the extensions `.png`, `.ppg`,
`.jng`, `.jpg`, matched case-sensitively. -/
def matchesGlob (name : String) : Bool :=
  match name.toList.reverse with
  | g :: c2 :: c1 :: d :: _ =>
    g = 'g' && (c2 = 'n' || c2 = 'p') && (c1 = 'p' || c1 = 'j') && d = '.'
  | _ => false

/-- Reference predicate following the words of the spec (sections 4.1
and 8), for comparison with `matchesGlob`: the file extension matches
PNG or JPEG case-insensitively, i.e. after lowercasing the extension is
`.png`, `.jpg` or `.jpeg`. -/
def specImageExtensionMatch (name : String) : Bool :=
  let revName := name.toList.reverse
  if revName.contains '.' then
    let ext := ((revName.takeWhile (fun c => !(c = '.'))).map Char.toLower).reverse
    ext = "png".toList ∨ ext = "jpg".toList ∨ ext = "jpeg".toList
  else false

/-- The frame enumerator of src/main.py line 117, over the list of
names present in the directory: keep the names matched by the glob and
sort them (stably) by the natural-sort key. -/
def enumerateFrames (files : List String) : List String :=
  stableSort fileLE (files.filter matchesGlob)

/-- What one iteration of the capture loop of src/screenshot_tool.py
(lines 28-41) does: complete normally (grab, save, sleep), or raise
`KeyboardInterrupt`, or raise any other exception. -/
inductive CaptureEvent where
  | ok : CaptureEvent
  | interrupt : CaptureEvent
  | failure : CaptureEvent
deriving DecidableEq, Repr

/-- Observation of a (fuel-bounded) prefix of the `while True` loop of
`start_screenshot_capture`: either the loop is still running after the
observed iterations, or it ended through one of the two `except`
branches of lines 42-45, after the given number of completed
iterations. -/
inductive RunOutcome where
  | running (iters : Nat) : RunOutcome
  | stopped (iters : Nat) : RunOutcome
  | errored (iters : Nat) : RunOutcome
deriving DecidableEq, Repr

/-- The `while True` loop of src/screenshot_tool.py lines 28-41 under
the `try` of line 27: `events i` is what iteration `i` does. The loop
itself has no exit; it ends only when an iteration raises. -/
def captureLoop (events : Nat → CaptureEvent) : Nat → Nat → RunOutcome
  | i, 0 => .running i
  | i, fuel + 1 =>
    match events i with
    | .ok => captureLoop events (i + 1) fuel
    | .interrupt => .stopped i
    | .failure => .errored i

/-- Process exit status after `start_screenshot_capture` ends, on the
valid-arguments path of the `__main__` block (lines 47-57): both
`except` branches of lines 42-45 only print, the function returns
normally, the script falls off the end, and the process exits with
status 0 — for the error branch as well as the interrupt branch. -/
def exitStatus : RunOutcome → Option Nat
  | .running _ => none
  | .stopped _ => some 0
  | .errored _ => some 0

/-- Has the process exited with a failure (non-zero) status? -/
def isFailureStatus : Option Nat → Bool
  | some c => !(c = 0)
  | none => false

/-- Response body `\x7b"error": \x7b"code": c\x7d\x7d` (an API provider error). -/
def providerErrBody (c : Int) : Json :=
  .obj [("error", .obj [("code", .num c)])]

/-- Response body `\x7b"choices": [\x7b"message": \x7b"content": s\x7d\x7d]\x7d`
(a successful chat completion). -/
def okBody (s : String) : Json :=
  .obj [("choices", .arr [.obj [("message", .obj [("content", .str s)])]])]

/-- The turn pairs the per-frame loop appends when every call
succeeds: for each frame, its user turn followed by the assistant turn
carrying the reply of call `n`. -/
def successTurns (client : Nat → Option String) :
    List String → Nat → Nat → List Turn
  | [], _, _ => []
  | u :: rest, idx, n =>
    ⟨Role.user, Content.parts (userContent idx u)⟩ ::
    ⟨Role.assistant, Content.str ((client n).getD "")⟩ ::
    successTurns client rest (idx + 1) (n + 1)

/-- Replace every empty-string reply of a client by `None`, leaving all
other replies unchanged. -/
def maskEmpty (client : Nat → Option String) : Nat → Option String :=
  fun i => if client i = some "" then none else client i

/-- An attempt classified `fatal` makes `send_messages` return `None`
at once, with no sleep, consuming a single try. -/
theorem sendGoAux_fatal (env : Nat → Attempt) (attempts i fuel : Nat)
    (h : classify (env i) = .fatal) :
    sendGoAux env attempts i (fuel + 1) = ⟨.noResult, [], 1⟩ := by
  simp [sendGoAux, h]

/-- When every attempt fails with a caught (retryable) error, the loop
runs through the whole budget: starting at attempt `i` with the exact
remaining fuel, it returns `None`, sleeps after each attempt except the
last (`2^k` half-seconds after attempt `k`), and issues one try per
remaining attempt. -/
theorem sendGoAux_allCaught (env : Nat → Attempt)
    (h : ∀ i, classify (env i) = .caughtErr) (attempts : Nat) :
    ∀ fuel i, i + fuel = attempts + 1 → 1 ≤ i →
      sendGoAux env attempts i fuel =
        ⟨.noResult, (List.range' i (attempts - i)).map (fun k => 2 ^ k),
         attempts + 1 - i⟩ := by
  intro fuel
  induction fuel with
  | zero =>
    intro i hi _
    have : i = attempts + 1 := by omega
    subst this
    simp [sendGoAux, Nat.sub_eq_zero_of_le (Nat.le_succ attempts)]
  | succ f ih =>
    intro i hi h1
    by_cases hia : i = attempts
    · subst hia
      simp [sendGoAux, h, Nat.sub_self]
    · have hlt : i < attempts := by omega
      have hrec := ih (i + 1) (by omega) (by omega)
      have hn : attempts - i = (attempts - (i + 1)) + 1 := by omega
      simp only [sendGoAux, h, if_neg hia, hrec]
      rw [hn, List.range'_succ]
      simp
      omega

/-- C2: the claim states that a 4xx response makes `send_messages`
abandon the budget immediately and return no result with zero sleeps.
The code contradicts its own comments ("Fail fast on non-retryable
client errors (4xx)", src/main.py line 75): `r.raise_for_status()`
raises `requests.HTTPError`, a subclass of `requests.RequestException`,
which the `except` tuple of line 98 catches, so a persistent 404 is
retried like a transient error: five tries and four backoff sleeps of
2^1, 2^2, 2^3, 2^4 half-seconds (0.5*2^i seconds) before `None`. -/
theorem c2_404_retried_not_fail_fast :
    send_messages (fun _ => Attempt.response 404 none) 5 =
      ⟨.noResult, [2, 4, 8, 16], 5⟩ := by
  rfl

/-- C3: with every attempt failing on a retryable HTTP 500,
`send_messages` returns no result after exactly `attempts` tries and
performs exactly `attempts - 1` backoff sleeps, the sleep after attempt
`i` lasting 2^i half-seconds, i.e. 0.5 * 2^i seconds, for
i = 1 .. attempts-1, with no jitter. -/
theorem c3_exhausts_budget_on_500s (attempts : Nat) (_h : 1 ≤ attempts) :
    send_messages (fun _ => Attempt.response 500 none) attempts =
      ⟨.noResult, (List.range' 1 (attempts - 1)).map (fun i : Nat => 2 ^ i),
       attempts⟩ := by
  have := sendGoAux_allCaught (fun _ => Attempt.response 500 none) (fun _ => rfl) attempts
    attempts 1 (by omega) (by omega)
  simpa [send_messages] using this

/-- Witness for C3 at the default budget `attempts = 5`: five tries,
sleeps of 2, 4, 8, 16 half-seconds. -/
theorem c3_exhausts_budget_on_500s_witness :
    send_messages (fun _ => Attempt.response 500 none) 5 =
      ⟨.noResult, (List.range' 1 4).map (fun i : Nat => 2 ^ i), 5⟩ :=
  c3_exhausts_budget_on_500s 5 (by decide)

/-- C4 counterexample: the claim states `send_messages` never
propagates an exception for any response body. But for the body
`\x7b"choices": []\x7d` the extraction `data["choices"][0]` raises
`IndexError`, which is not in the `except` tuple of line 98
(`requests.RequestException, RuntimeError, KeyError, ValueError,
json.JSONDecodeError`), so it propagates to the caller on the first
try, with no sleeps. -/
theorem c4_cex_empty_choices_raises :
    send_messages
        (fun _ => Attempt.response 200 (some (Json.obj [("choices", Json.arr [])]))) 5 =
      ⟨.exn .indexError, [], 1⟩ := by
  rfl

/-- C4 (amended): a malformed-JSON body is retryable, and a missing
*dict key* on the extraction path (a `KeyError`, e.g. no "choices" key,
or no "message" key in the first choice) is retryable; but
`send_messages` does not catch every extraction error — a body whose
"choices" list is empty raises an uncaught `IndexError` that propagates
to the caller. -/
theorem c4_parse_errors_retryable_but_indexerror_escapes
    (fields : List (String × Json))
    (herr : jsonLookup fields "error" = none)
    (hch : jsonLookup fields "choices" = none) :
    classify (.response 200 none) = .caughtErr ∧
    classify (.response 200 (some (.obj fields))) = .caughtErr ∧
    classify (.response 200 (some (.obj [("choices", .arr [.obj []])]))) = .caughtErr ∧
    classify (.response 200 (some (.obj [("choices", .arr [])]))) =
      .uncaughtExn .indexError := by
  refine ⟨rfl, ?_, rfl, rfl⟩
  simp [classify, retryableStatus, extractOutcome, pyContains, herr,
    extractReplyPath, pySubscript, hch, caughtByExcept]

/-- Witness for the amended C4 at the empty object body `\x7b\x7d`. -/
theorem c4_parse_errors_retryable_witness :
    classify (.response 200 none) = .caughtErr ∧
    classify (.response 200 (some (.obj []))) = .caughtErr ∧
    classify (.response 200 (some (.obj [("choices", .arr [.obj []])]))) = .caughtErr ∧
    classify (.response 200 (some (.obj [("choices", .arr [])]))) =
      .uncaughtExn .indexError :=
  c4_parse_errors_retryable_but_indexerror_escapes [] rfl rfl

/-- C5: a successful HTTP response whose JSON body carries an error
object is retried when the code is in the retryable provider set
\x7b524, 529\x7d (here: the first attempt carries the provider error, the
second succeeds, so the call returns the reply after one backoff
sleep), and degrades to `None` on the very first try — no sleeps, four
attempts left unused — when the code is outside the set. -/
theorem c5_provider_code_classification (c : Int) :
    (c = 524 ∨ c = 529 →
      send_messages (fun i => if i = 1 then .response 200 (some (providerErrBody c))
          else .response 200 (some (okBody "map"))) 5 =
        ⟨.ok (.str "map"), [2], 2⟩) ∧
    (c ≠ 524 → c ≠ 529 →
      send_messages (fun _ => .response 200 (some (providerErrBody c))) 5 =
        ⟨.noResult, [], 1⟩) := by
  constructor
  · rintro (rfl | rfl) <;> rfl
  · intro h1 h2
    have hfatal : classify (.response 200 (some (providerErrBody c))) = .fatal := by
      simp [classify, retryableStatus, extractOutcome, providerErrBody, pyContains,
        jsonLookup, pyGetDefault, pyGetNone, codeInRetryableApiCodes, h1, h2]
    exact sendGoAux_fatal _ 5 1 4 hfatal

/-- Witness for C5 at the provider codes 529 (retried) and 400 (not
retried). -/
theorem c5_provider_code_classification_witness :
    send_messages (fun i => if i = 1 then .response 200 (some (providerErrBody 529))
        else .response 200 (some (okBody "map"))) 5 =
      ⟨.ok (.str "map"), [2], 2⟩ ∧
    send_messages (fun _ => .response 200 (some (providerErrBody 400))) 5 =
      ⟨.noResult, [], 1⟩ :=
  ⟨(c5_provider_code_classification 529).1 (Or.inr rfl),
   (c5_provider_code_classification 400).2 (by decide) (by decide)⟩

/-- `successTurns` contributes two turns per frame. -/
theorem successTurns_length (client : Nat → Option String) :
    ∀ (frames : List String) (idx n : Nat),
      (successTurns client frames idx n).length = 2 * frames.length := by
  intro frames
  induction frames with
  | nil => intro idx n; rfl
  | cons u rest ih =>
    intro idx n
    simp [successTurns, ih]
    omega

/-- When the client answers every per-frame call with a truthy reply,
the loop processes all frames: no halt, one call per frame, and the
conversation extended by exactly the success turn pairs. -/
theorem frameLoop_success (client : Nat → Option String) :
    ∀ (frames : List String) (idx : Nat) (convo : List Turn) (n : Nat),
      (∀ i, i < frames.length → pyTruthy (client (n + i)) = true) →
      frameLoop client frames idx convo n =
        ⟨convo ++ successTurns client frames idx n, n + frames.length, false⟩ := by
  intro frames
  induction frames with
  | nil => intro idx convo n _; simp [frameLoop, successTurns]
  | cons u rest ih =>
    intro idx convo n h
    have h0 : pyTruthy (client n) = true := by simpa using h 0 (by simp)
    have hrest : ∀ i, i < rest.length → pyTruthy (client (n + 1 + i)) = true := by
      intro i hi
      have := h (i + 1) (by simpa using Nat.succ_lt_succ hi)
      simpa [Nat.add_assoc, Nat.add_comm 1 i] using this
    simp only [frameLoop, h0, if_true]
    rw [ih (idx + 1) _ (n + 1) hrest]
    simp [successTurns]
    omega

/-- When the client answers calls `n .. n+m-1` truthily and call `n+m`
falsily, with at least `m+1` frames left, the loop halts through the
`break`: `m+1` calls are made from this point, the halt flag is set,
and the conversation gains `2m` turns for the `m` completed frames plus
the user turn of the failed frame. -/
theorem frameLoop_halt (client : Nat → Option String) :
    ∀ (frames : List String) (m idx : Nat) (convo : List Turn) (n : Nat),
      m < frames.length →
      (∀ i, i < m → pyTruthy (client (n + i)) = true) →
      pyTruthy (client (n + m)) = false →
      (frameLoop client frames idx convo n).nCalls = n + m + 1 ∧
      (frameLoop client frames idx convo n).halted = true ∧
      (frameLoop client frames idx convo n).convo.length = convo.length + 2 * m + 1 := by
  intro frames
  induction frames with
  | nil => intro m idx convo n hm; exact absurd hm (by simp)
  | cons u rest ih =>
    intro m idx convo n hm hpre hfail
    match m with
    | 0 =>
      have h0 : pyTruthy (client n) = false := by simpa using hfail
      simp [frameLoop, h0]
    | m' + 1 =>
      have h0 : pyTruthy (client n) = true := by simpa using hpre 0 (by omega)
      have hrest : ∀ i, i < m' → pyTruthy (client (n + 1 + i)) = true := by
        intro i hi
        have := hpre (i + 1) (by omega)
        simpa [Nat.add_assoc, Nat.add_comm 1 i] using this
      have hfail' : pyTruthy (client (n + 1 + m')) = false := by
        have : n + 1 + m' = n + (m' + 1) := by omega
        rw [this]; exact hfail
      have hm' : m' < rest.length := by simpa using hm
      have := ih m' (idx + 1)
        (convo ++ [⟨Role.user, Content.parts (userContent idx u)⟩] ++
          [⟨Role.assistant, Content.str ((client n).getD "")⟩]) (n + 1) hm' hrest hfail'
      simp only [frameLoop, h0, if_true]
      refine ⟨by rw [this.1]; omega, this.2.1, by rw [this.2.2]; simp; omega⟩

/-- Indexing into the success turns: the turn at even offset `2j` is
the user turn of the `(j+1)`-st remaining frame. -/
theorem successTurns_get_even (client : Nat → Option String) :
    ∀ (frames : List String) (j idx n : Nat), j < frames.length →
      (successTurns client frames idx n)[2 * j]? =
        some ⟨Role.user, Content.parts (userContent (idx + j) (frames[j]?.getD ""))⟩ := by
  intro frames
  induction frames with
  | nil => intro j idx n hj; exact absurd hj (by simp)
  | cons u rest ih =>
    intro j idx n hj
    match j with
    | 0 => simp [successTurns]
    | j' + 1 =>
      have hj' : j' < rest.length := by simpa using hj
      have heq : 2 * (j' + 1) = (2 * j') + 1 + 1 := by omega
      have harg : idx + 1 + j' = idx + (j' + 1) := by omega
      rw [heq]
      simp only [successTurns, List.getElem?_cons_succ]
      rw [ih j' (idx + 1) (n + 1) hj', harg]

/-- The summary block always issues exactly one more call. -/
theorem mainAfterLoop_nCalls (client : Nat → Option String) (r : LoopResult) :
    (mainAfterLoop client r).nCalls = r.nCalls + 1 := by
  unfold mainAfterLoop
  split <;> rfl

/-- The summary block always leaves its user turn in the transcript. -/
theorem mainAfterLoop_mem_birdseye (client : Nat → Option String) (r : LoopResult) :
    (⟨Role.user, Content.str BIRDS_EYE_VIEW_PROMPT⟩ : Turn) ∈
      (mainAfterLoop client r).convo := by
  unfold mainAfterLoop
  split <;> simp

/-- The halt flag of the loop is preserved by the summary block. -/
theorem mainAfterLoop_halted (client : Nat → Option String) (r : LoopResult) :
    (mainAfterLoop client r).halted = r.halted := by
  unfold mainAfterLoop
  split <;> rfl

/-- C1 counterexample: the claim states that after a permanent failure
on frame 1 of 2 no summary request is made and the transcript has no
summary turn. On the code, with every call failing, `main` still runs
the summary block of lines 149-161 after the `break`: a second
`send_messages` call is issued and the bird\x27s-eye-view user turn is in
the transcript. -/
theorem c1_cex_summary_requested_after_halt :
    (mainRun (fun _ => none) ["frame1.png", "frame2.png"]).nCalls = 2 ∧
    (mainRun (fun _ => none) ["frame1.png", "frame2.png"]).halted = true ∧
    (⟨Role.user, Content.str BIRDS_EYE_VIEW_PROMPT⟩ : Turn) ∈
      (mainRun (fun _ => none) ["frame1.png", "frame2.png"]).convo := by
  refine ⟨rfl, rfl, ?_⟩
  simp [mainRun, mainAfterLoop, frameLoop, pyTruthy]

/-- C1 (amended): if the call for frame k of n permanently fails, the
per-frame loop halts at once — exactly k per-frame calls are made, so
frames k+1..n are never sent, and the conversation holds the 2(k-1)
turns of the completed frames plus the user turn of frame k (2k turns
with the system turn, no assistant turn for frame k). However the
driver still runs the summary block: one further `send_messages` call
is made (k+1 in total) and the bird\x27s-eye-view user turn is appended to
the transcript. -/
theorem c1_halt_on_failed_frame (client : Nat → Option String) (frames : List String)
    (k : Nat) (hk : 1 ≤ k) (hkn : k ≤ frames.length)
    (hpre : ∀ i, i + 1 < k → pyTruthy (client i) = true)
    (hfail : pyTruthy (client (k - 1)) = false) :
    (frameLoop client frames 1 initialConvo 0).nCalls = k ∧
    (frameLoop client frames 1 initialConvo 0).halted = true ∧
    (frameLoop client frames 1 initialConvo 0).convo.length = 2 * k ∧
    (mainRun client frames).nCalls = k + 1 ∧
    (⟨Role.user, Content.str BIRDS_EYE_VIEW_PROMPT⟩ : Turn) ∈
      (mainRun client frames).convo := by
  have hm : k - 1 < frames.length := by omega
  have hpre' : ∀ i, i < k - 1 → pyTruthy (client (0 + i)) = true := by
    intro i hi
    simpa using hpre i (by omega)
  have hfail' : pyTruthy (client (0 + (k - 1))) = false := by simpa using hfail
  have h := frameLoop_halt client frames (k - 1) 1 initialConvo 0 hm hpre' hfail'
  refine ⟨by rw [h.1]; omega, h.2.1, ?_, ?_, ?_⟩
  · rw [h.2.2]
    simp [initialConvo]
    omega
  · rw [mainRun, mainAfterLoop_nCalls, h.1]
    omega
  · rw [mainRun]
    exact mainAfterLoop_mem_birdseye _ _

/-- Witness for the amended C1: a single frame whose call fails. -/
theorem c1_halt_on_failed_frame_witness :
    (frameLoop (fun _ => none) ["frame1.png"] 1 initialConvo 0).nCalls = 1 ∧
    (frameLoop (fun _ => none) ["frame1.png"] 1 initialConvo 0).halted = true ∧
    (frameLoop (fun _ => none) ["frame1.png"] 1 initialConvo 0).convo.length = 2 * 1 ∧
    (mainRun (fun _ => none) ["frame1.png"]).nCalls = 1 + 1 ∧
    (⟨Role.user, Content.str BIRDS_EYE_VIEW_PROMPT⟩ : Turn) ∈
      (mainRun (fun _ => none) ["frame1.png"]).convo :=
  c1_halt_on_failed_frame (fun _ => none) ["frame1.png"] 1 (by decide) (by decide)
    (fun _ hi => absurd hi (by omega)) rfl

/-- C6: when the client answers every per-frame call and the summary
call with a truthy reply, after the N frames the conversation is
exactly the system turn followed by the N user/assistant pairs —
1 + 2N turns — and after the successful summary it holds
1 + 2N + 2 turns. -/
theorem c6_conversation_growth (client : Nat → Option String) (frames : List String)
    (hframes : ∀ i, i < frames.length → pyTruthy (client i) = true)
    (hsummary : pyTruthy (client frames.length) = true) :
    (frameLoop client frames 1 initialConvo 0).convo =
      initialConvo ++ successTurns client frames 1 0 ∧
    (frameLoop client frames 1 initialConvo 0).convo.length = 1 + 2 * frames.length ∧
    (mainRun client frames).convo.length = 1 + 2 * frames.length + 2 := by
  have hs := frameLoop_success client frames 1 initialConvo 0 (by simpa using hframes)
  refine ⟨by rw [hs], ?_, ?_⟩
  · rw [hs]
    simp [initialConvo, successTurns_length]
    omega
  · rw [mainRun, hs]
    unfold mainAfterLoop
    simp only []
    have hn : pyTruthy (client (LoopResult.mk (initialConvo ++ successTurns client frames 1 0)
        (0 + frames.length) false).nCalls) = true := by
      simpa using hsummary
    rw [if_pos hn]
    simp [initialConvo, successTurns_length]
    omega

/-- Witness for C6 with two frames and a constant truthy client. -/
theorem c6_conversation_growth_witness :
    (frameLoop (fun _ => some "ok") ["a.png", "b.png"] 1 initialConvo 0).convo =
      initialConvo ++ successTurns (fun _ => some "ok") ["a.png", "b.png"] 1 0 ∧
    (frameLoop (fun _ => some "ok") ["a.png", "b.png"] 1 initialConvo 0).convo.length =
      1 + 2 * (["a.png", "b.png"] : List String).length ∧
    (mainRun (fun _ => some "ok") ["a.png", "b.png"]).convo.length =
      1 + 2 * (["a.png", "b.png"] : List String).length + 2 :=
  c6_conversation_growth (fun _ => some "ok") ["a.png", "b.png"]
    (fun _ _ => rfl) rfl

/-- C7: the user turn built for the first frame carries the fixed
initial instruction text followed by the encoded image; the user turn
of every later frame (index at least 2) carries only the encoded
image. In a run where all calls succeed, the turn at position 1 + 2j
of the conversation is exactly the user turn built for frame j+1. -/
theorem c7_first_user_turn_carries_instructions (client : Nat → Option String)
    (frames : List String) (u : String) (idx j : Nat)
    (h2 : 2 ≤ idx) (hj : j < frames.length)
    (hall : ∀ i, i < frames.length → pyTruthy (client i) = true) :
    userContent 1 u = [ContentPart.text INITIAL_PROMPT, ContentPart.imageUrl u] ∧
    userContent idx u = [ContentPart.imageUrl u] ∧
    (frameLoop client frames 1 initialConvo 0).convo[1 + 2 * j]? =
      some ⟨Role.user, Content.parts (userContent (j + 1) (frames[j]?.getD ""))⟩ := by
  refine ⟨rfl, ?_, ?_⟩
  · have hne : ¬ idx = 1 := by omega
    simp [userContent, hne]
  · have hs := frameLoop_success client frames 1 initialConvo 0 (by simpa using hall)
    rw [hs]
    have hcons : initialConvo ++ successTurns client frames 1 0 =
        ⟨Role.system, Content.str SYSTEM_PROMPT⟩ :: successTurns client frames 1 0 := by
      simp [initialConvo]
    rw [hcons]
    have hidx : 1 + 2 * j = (2 * j) + 1 := by omega
    rw [hidx, List.getElem?_cons_succ, successTurns_get_even client frames j 1 0 hj,
      Nat.add_comm 1 j]

/-- Witness for C7 with two frames: the second user turn is image-only
and sits at position 3 of the conversation. -/
theorem c7_first_user_turn_carries_instructions_witness :
    userContent 1 "u1" = [ContentPart.text INITIAL_PROMPT, ContentPart.imageUrl "u1"] ∧
    userContent 2 "u1" = [ContentPart.imageUrl "u1"] ∧
    (frameLoop (fun _ => some "ok") ["a.png", "b.png"] 1 initialConvo 0).convo[1 + 2 * 1]? =
      some ⟨Role.user, Content.parts (userContent (1 + 1)
        ((["a.png", "b.png"] : List String)[1]?.getD ""))⟩ :=
  c7_first_user_turn_carries_instructions (fun _ => some "ok") ["a.png", "b.png"]
    "u1" 2 1 (by decide) (by decide) (fun _ _ => rfl)

/-- Truthiness is unchanged by masking empty replies to `None`. -/
theorem pyTruthy_maskEmpty (client : Nat → Option String) (i : Nat) :
    pyTruthy (maskEmpty client i) = pyTruthy (client i) := by
  cases hc : client i with
  | none => simp [maskEmpty, hc]
  | some s =>
    by_cases hs : s = ""
    · subst hs
      simp [maskEmpty, hc, pyTruthy]
    · simp [maskEmpty, hc, hs]

/-- On a truthy reply, masking changes nothing. -/
theorem maskEmpty_of_truthy (client : Nat → Option String) (i : Nat)
    (h : pyTruthy (client i) = true) :
    maskEmpty client i = client i := by
  cases hc : client i with
  | none => rw [hc] at h; simp [pyTruthy] at h
  | some s =>
    have hs : ¬ s = "" := by
      rw [hc] at h
      simpa [pyTruthy] using h
    simp [maskEmpty, hc, hs]

/-- The per-frame loop cannot tell an empty-string reply from `None`. -/
theorem frameLoop_maskEmpty (client : Nat → Option String) :
    ∀ (frames : List String) (idx : Nat) (convo : List Turn) (n : Nat),
      frameLoop (maskEmpty client) frames idx convo n =
        frameLoop client frames idx convo n := by
  intro frames
  induction frames with
  | nil => intro idx convo n; rfl
  | cons u rest ih =>
    intro idx convo n
    simp only [frameLoop, pyTruthy_maskEmpty]
    by_cases ht : pyTruthy (client n) = true
    · simp only [ht, if_true, maskEmpty_of_truthy client n ht, ih]
    · have ht' : pyTruthy (client n) = false := by simpa using ht
      simp [ht']

/-- C10: an empty-string reply from `send_messages` is treated by the
driver exactly as a failed call, because both `if not reply:`
(line 140) and `if birds_eye_reply:` (line 156) test Python truthiness:
replacing every empty-string reply of the client by `None` leaves the
whole run — transcript, call count, halt flag, summary flag —
unchanged. Concretely, a run whose only frame gets an empty-string
reply halts with no assistant turn, and its summary call (also
answered by the empty string) reports failure and appends no summary
turn. -/
theorem c10_empty_reply_is_failure (client : Nat → Option String) (frames : List String) :
    mainRun (maskEmpty client) frames = mainRun client frames ∧
    mainRun (fun _ => some "") ["f1.png"] =
      ⟨[⟨Role.system, Content.str SYSTEM_PROMPT⟩,
        ⟨Role.user, Content.parts (userContent 1 "f1.png")⟩,
        ⟨Role.user, Content.str BIRDS_EYE_VIEW_PROMPT⟩], 2, true, false⟩ := by
  constructor
  · rw [mainRun, mainRun, frameLoop_maskEmpty]
    generalize frameLoop client frames 1 initialConvo 0 = r
    unfold mainAfterLoop
    rw [pyTruthy_maskEmpty]
    by_cases ht : pyTruthy (client r.nCalls) = true
    · simp only [ht, if_true, maskEmpty_of_truthy client r.nCalls ht]
    · have ht' : pyTruthy (client r.nCalls) = false := by simpa using ht
      simp [ht']
  · rfl

/-- Python `<` on aligned key elements is transitive. -/
theorem partLT_trans (a b c : KeyPart) (hab : partLT a b = true)
    (hbc : partLT b c = true) : partLT a c = true := by
  cases a <;> cases b <;> cases c <;> simp_all [partLT]
  · exact lt_trans hab hbc
  · omega

/-- Python `<` on aligned key elements is asymmetric. -/
theorem partLT_asymm (a b : KeyPart) (hab : partLT a b = true)
    (hba : partLT b a = true) : False := by
  cases a <;> cases b <;> simp_all [partLT]
  · exact lt_asymm hab hba
  · omega

/-- Two distinct key elements compare one way or the other. -/
theorem partLT_connex (a b : KeyPart) (h : ¬ a = b) :
    partLT a b = true ∨ partLT b a = true := by
  cases a with
  | txt x =>
    cases b with
    | txt y =>
      have hxy : x ≠ y := fun he => h (by rw [he])
      rcases lt_or_gt_of_ne hxy with hl | hl
      · left; simp [partLT, hl]
      · right; simp [partLT, hl]
    | num v => left; simp [partLT]
  | num v =>
    cases b with
    | txt y => right; simp [partLT]
    | num w =>
      have hvw : v ≠ w := fun he => h (by rw [he])
      rcases Nat.lt_or_ge v w with hl | hge
      · left; simp [partLT, hl]
      · right
        simp only [partLT, decide_eq_true_eq]
        omega

/-- The list comparison used by `sorted` on the keys is transitive. -/
theorem keyLE_trans : ∀ x y z : List KeyPart,
    keyLE x y = true → keyLE y z = true → keyLE x z = true := by
  intro x
  induction x with
  | nil => intro y z _ _; rfl
  | cons a as ih =>
    intro y z hxy hyz
    cases y with
    | nil => simp [keyLE] at hxy
    | cons b bs =>
      cases z with
      | nil => simp [keyLE] at hyz
      | cons c cs =>
        simp only [keyLE] at hxy hyz ⊢
        by_cases hab : a = b
        · subst hab
          rw [if_pos rfl] at hxy
          by_cases hac : a = c
          · subst hac
            rw [if_pos rfl] at hyz ⊢
            exact ih bs cs hxy hyz
          · rw [if_neg hac] at hyz ⊢
            exact hyz
        · rw [if_neg hab] at hxy
          by_cases hbc : b = c
          · subst hbc
            rw [if_neg hab]
            exact hxy
          · rw [if_neg hbc] at hyz
            have hac : ¬ a = c := by
              intro h
              subst h
              exact partLT_asymm a b hxy hyz
            rw [if_neg hac]
            exact partLT_trans a b c hxy hyz

/-- The list comparison used by `sorted` on the keys is total. -/
theorem keyLE_total : ∀ x y : List KeyPart,
    keyLE x y = true ∨ keyLE y x = true := by
  intro x
  induction x with
  | nil => intro y; left; rfl
  | cons a as ih =>
    intro y
    cases y with
    | nil => right; rfl
    | cons b bs =>
      simp only [keyLE]
      by_cases hab : a = b
      · subst hab
        rw [if_pos rfl, if_pos rfl]
        exact ih bs
      · rw [if_neg hab, if_neg (fun h => hab h.symm)]
        exact partLT_connex a b hab

/-- The name comparison used by the frame enumerator is transitive. -/
theorem fileLE_trans (a b c : String) (hab : fileLE a b = true)
    (hbc : fileLE b c = true) : fileLE a c = true :=
  keyLE_trans (natKey a) (natKey b) (natKey c) hab hbc

/-- The name comparison used by the frame enumerator is total. -/
theorem fileLE_total (a b : String) : (fileLE a b || fileLE b a) = true := by
  rcases keyLE_total (natKey a) (natKey b) with h | h <;>
    simp [fileLE, h]

/-- Membership in an insertion is the new element or an old one. -/
theorem mem_insertSorted (le : α → α → Bool) (a x : α) :
    ∀ l : List α, x ∈ insertSorted le a l ↔ x = a ∨ x ∈ l := by
  intro l
  induction l with
  | nil => simp [insertSorted]
  | cons b bs ih =>
    by_cases hba : le b a = true
    · have hins : insertSorted le a (b :: bs) = b :: insertSorted le a bs := by
        simp [insertSorted, hba]
      rw [hins]
      simp only [List.mem_cons, ih]
      tauto
    · have hba' : le b a = false := by simpa using hba
      have hins : insertSorted le a (b :: bs) = a :: b :: bs := by
        simp [insertSorted, hba']
      rw [hins]
      simp only [List.mem_cons]

/-- Inserting into a sorted list keeps it sorted, for a transitive and
total comparison. -/
theorem pairwise_insertSorted (le : α → α → Bool)
    (htrans : ∀ a b c, le a b = true → le b c = true → le a c = true)
    (htotal : ∀ a b, (le a b || le b a) = true) (a : α) :
    ∀ l : List α, List.Pairwise (fun x y => le x y = true) l →
      List.Pairwise (fun x y => le x y = true) (insertSorted le a l) := by
  intro l
  induction l with
  | nil => intro _; simp [insertSorted]
  | cons b bs ih =>
    intro h
    rw [List.pairwise_cons] at h
    by_cases hba : le b a = true
    · have hins : insertSorted le a (b :: bs) = b :: insertSorted le a bs := by
        simp [insertSorted, hba]
      rw [hins, List.pairwise_cons]
      refine ⟨?_, ih h.2⟩
      intro y hy
      rcases (mem_insertSorted le a y bs).mp hy with rfl | hy'
      · exact hba
      · exact h.1 y hy'
    · have hab : le a b = true := by
        rcases Bool.or_eq_true_iff.mp (htotal a b) with h' | h'
        · exact h'
        · exact absurd h' hba
      have hba' : le b a = false := by simpa using hba
      have hins : insertSorted le a (b :: bs) = a :: b :: bs := by
        simp [insertSorted, hba']
      rw [hins, List.pairwise_cons]
      refine ⟨?_, List.pairwise_cons.mpr h⟩
      intro y hy
      rcases List.mem_cons.mp hy with rfl | hy'
      · exact hab
      · exact htrans a b y hab (h.1 y hy')

/-- Elements of the stable sort are the elements of the input. -/
theorem mem_stableSort_fold (le : α → α → Bool) (x : α) :
    ∀ (l acc : List α),
      (x ∈ l.foldl (fun acc a => insertSorted le a acc) acc ↔ x ∈ acc ∨ x ∈ l) := by
  intro l
  induction l with
  | nil => intro acc; simp
  | cons a as ih =>
    intro acc
    simp only [List.foldl_cons]
    rw [ih (insertSorted le a acc)]
    simp [mem_insertSorted]
    tauto

/-- The stable sort is sorted, for a transitive and total comparison. -/
theorem pairwise_stableSort_fold (le : α → α → Bool)
    (htrans : ∀ a b c, le a b = true → le b c = true → le a c = true)
    (htotal : ∀ a b, (le a b || le b a) = true) :
    ∀ (l acc : List α), List.Pairwise (fun x y => le x y = true) acc →
      List.Pairwise (fun x y => le x y = true)
        (l.foldl (fun acc a => insertSorted le a acc) acc) := by
  intro l
  induction l with
  | nil => intro acc h; simpa using h
  | cons a as ih =>
    intro acc h
    simp only [List.foldl_cons]
    exact ih (insertSorted le a acc) (pairwise_insertSorted le htrans htotal a acc h)

/-- C8 counterexample: the claim states the enumerator yields exactly
the files whose extension is PNG or JPEG case-insensitively. On the
code, the glob `*.[pj][np]g` also matches the extension `.ppg`, which
is neither PNG nor JPEG, and fails to match `.PNG`, which is. -/
theorem c8_cex_ppg_matched_png_uppercase_missed :
    enumerateFrames ["a.ppg"] = ["a.ppg"] ∧
    specImageExtensionMatch "a.ppg" = false ∧
    enumerateFrames ["b.PNG"] = [] ∧
    specImageExtensionMatch "b.PNG" = true := by
  refine ⟨by decide, by decide, by decide, by decide⟩

/-- C8 (amended): the enumerator yields exactly the files of the
directory whose name matches the glob `*.[pj][np]g` case-sensitively
(last four characters a dot, then `p` or `j`, then `n` or `p`, then
`g`), ordered by the natural alphanumeric key in which maximal digit
runs compare numerically — so `img1.png` comes before `img2.png`,
which comes before `img10.png`. -/
theorem c8_enumerator_glob_filter_natural_order (files : List String) (f : String) :
    (f ∈ enumerateFrames files ↔ f ∈ files ∧ matchesGlob f = true) ∧
    List.Pairwise (fun a b => fileLE a b = true) (enumerateFrames files) ∧
    enumerateFrames ["img2.png", "img10.png", "img1.png"] =
      ["img1.png", "img2.png", "img10.png"] := by
  refine ⟨?_, ?_, by decide⟩
  · unfold enumerateFrames stableSort
    rw [mem_stableSort_fold, List.mem_filter]
    simp
  · unfold enumerateFrames stableSort
    exact pairwise_stableSort_fold fileLE fileLE_trans fileLE_total
      (files.filter matchesGlob) [] (by simp)

/-- Witness for the amended C8: the natural ordering on a concrete
directory listing. -/
theorem c8_enumerator_glob_filter_natural_order_witness :
    enumerateFrames ["img2.png", "img10.png", "img1.png"] =
      ["img1.png", "img2.png", "img10.png"] :=
  (c8_enumerator_glob_filter_natural_order [] "").2.2

/-- C9 counterexample: the claim states that on an unrecoverable
capture error the process exits with a failure status. On the code,
the `except Exception` branch of src/screenshot_tool.py lines 44-45
only prints the error; `start_screenshot_capture` then returns
normally, the `__main__` block falls off the end, and the process
exits with status 0 — not a failure status. -/
theorem c9_cex_error_exits_with_status_zero :
    captureLoop (fun _ => CaptureEvent.failure) 0 3 = RunOutcome.errored 0 ∧
    exitStatus (captureLoop (fun _ => CaptureEvent.failure) 0 3) = some 0 ∧
    isFailureStatus (exitStatus (captureLoop (fun _ => CaptureEvent.failure) 0 3)) =
      false := by
  exact ⟨rfl, rfl, rfl⟩

/-- C9 (amended): the capture loop terminates only on an external
interrupt or on a capture error. An interrupt at iteration j stops it
gracefully and the process exits with status 0; any other exception at
iteration j ends it too, with the error printed, but the process also
exits with status 0 rather than a failure status. When no iteration
raises, the loop never terminates (it is still running after any
number of observed iterations). -/
theorem c9_capture_termination (events : Nat → CaptureEvent) (fuel i j : Nat) :
    (captureLoop events i fuel = .stopped j →
       events j = .interrupt ∧ exitStatus (.stopped j) = some 0) ∧
    (captureLoop events i fuel = .errored j →
       events j = .failure ∧ exitStatus (.errored j) = some 0) ∧
    ((∀ k, events k = .ok) → captureLoop events i fuel = .running (i + fuel)) := by
  induction fuel generalizing i with
  | zero =>
    refine ⟨?_, ?_, ?_⟩
    · intro h; simp [captureLoop] at h
    · intro h; simp [captureLoop] at h
    · intro _; simp [captureLoop]
  | succ f ih =>
    cases hev : events i with
    | ok =>
      refine ⟨?_, ?_, ?_⟩
      · intro h
        simp only [captureLoop, hev] at h
        exact (ih (i + 1)).1 h
      · intro h
        simp only [captureLoop, hev] at h
        exact (ih (i + 1)).2.1 h
      · intro hall
        simp only [captureLoop, hev]
        rw [(ih (i + 1)).2.2 hall]
        have : i + 1 + f = i + (f + 1) := by omega
        rw [this]
    | interrupt =>
      refine ⟨?_, ?_, ?_⟩
      · intro h
        simp only [captureLoop, hev] at h
        injection h with hij
        subst hij
        exact ⟨hev, rfl⟩
      · intro h
        simp only [captureLoop, hev] at h
        exact RunOutcome.noConfusion h
      · intro hall
        rw [hall i] at hev
        cases hev
    | failure =>
      refine ⟨?_, ?_, ?_⟩
      · intro h
        simp only [captureLoop, hev] at h
        exact RunOutcome.noConfusion h
      · intro h
        simp only [captureLoop, hev] at h
        injection h with hij
        subst hij
        exact ⟨hev, rfl⟩
      · intro hall
        rw [hall i] at hev
        cases hev

/-- Witness for the amended C9: two successful iterations, then an
interrupt at iteration 2, observed with fuel 5. -/
theorem c9_capture_termination_witness :
    (fun k : Nat => if k < 2 then CaptureEvent.ok else CaptureEvent.interrupt) 2 =
      CaptureEvent.interrupt ∧
    exitStatus (RunOutcome.stopped 2) = some 0 :=
  (c9_capture_termination
    (fun k => if k < 2 then CaptureEvent.ok else CaptureEvent.interrupt) 5 0 2).1
    (by decide)
